import Mathlib

/-!
# Shallow embedding of the `pdnnet` networking library

This file embeds the parts of the `pdnnet` C++ networking library needed to
check its specification: the POSIX TLS layer (`include/pdnnet/tls.hh`), the
Windows Schannel handshake loop (`src/httpsclient.cc`), the raw socket
reader/writer (`include/pdnnet/socket.hh`), the echo server and generic IPv4
server (`include/pdnnet/echoserver.hh`, `include/pdnnet/server.hh`) and the
thread-pool task executor (`include/pdnnet/executor.hh`).

Platform calls (`SSL_connect`, `SSL_write`, `recv`, `send`, `poll`,
`InitializeSecurityContext`, ...) are the environment's moves: each model
takes their results as explicit oracle inputs and mirrors the source's
control flow over them.  Machine integers that matter (`int` returns from the
native calls) are modelled as `Int`; byte counts as `Nat`; byte buffers as
`List Nat`; `pdnnet::optional_error` (a `std::optional<std::string>`) as
`Option String` with `none` meaning success.
-/

namespace Pdnnet

/-- The `INT_MAX` for the 32-bit `int` used by both native backends. -/
def INT_MAX : Nat := 2147483647

/-- The `EXIT_SUCCESS` from `<cstdlib>`. -/
def EXIT_SUCCESS : Int := 0

/-- The `EXIT_FAILURE` from `<cstdlib>`. -/
def EXIT_FAILURE : Int := 1

/-- The `pdnnet::optional_error`: an `std::optional<std::string>`; an empty
optional (`none`) means success, `some msg` carries the error message. -/
abbrev optional_error := Option String

/-- The `pdnnet::openssl_error_string(err, message)` (tls.hh): the library-side
text for the queued OpenSSL error is opaque here and passed in as
`err_text`; the function prefixes it with `message` and `": "`. -/
def openssl_error_string (err_text message : String) : String :=
  message ++ ": " ++ err_text

/-- The `pdnnet::openssl_ssl_error_string(ssl_error, message)` (tls.hh): renders
an `SSL_get_error` code (the rendered text is the opaque `ssl_err_text`)
prefixed with `message` and `": "`. -/
def openssl_ssl_error_string (ssl_err_text message : String) : String :=
  message ++ ": " ++ ssl_err_text

/-- The `pdnnet::errno_error(message)` (error.hh): `message + ": " + errno text`;
the `errno` rendering is the opaque `sys` string. -/
def errno_error (sys message : String) : String :=
  message ++ ": " ++ sys

/-- The `pdnnet::windows_error(err, message)` (error.hh): `message + ": " +`
system-formatted text for `err` (the formatted text is the opaque `sys`). -/
def windows_error (sys message : String) : String :=
  message ++ ": " ++ sys

/-- The `pdnnet::winsock_error(message)` (error.hh): formats the thread's last
Winsock error (opaque `sys` text) prefixed by `message`. -/
def winsock_error (sys message : String) : String :=
  message ++ ": " ++ sys

/-!
## POSIX TLS layer: `unique_tls_layer::handshake` (tls.hh lines 730-746)

The handshake binds the session to the socket via `SSL_set_fd` (failing that
reports an error), then calls `SSL_connect` once.  `status == 1` is success;
otherwise `SSL_get_error` is rendered and the result is labelled as a
controlled (`status == 0`) or fatal (any other status) handshake error.

Oracle inputs: `set_fd_ok` (whether `SSL_set_fd` returned nonzero),
`fd_err_text` (rendered OpenSSL queue error used when `SSL_set_fd` fails),
`status` (the `SSL_connect` return) and `ssl_err_text` (the rendered
`openssl_ssl_error_string(SSL_get_error(layer_, status))`).
-/

/-- Model of `unique_tls_layer::handshake`. -/
def unique_tls_layer.handshake (set_fd_ok : Bool) (fd_err_text : String)
    (status : Int) (ssl_err_text : String) : optional_error :=
  if !set_fd_ok then
    some (openssl_error_string fd_err_text "Failed to set socket handle")
  else if status = 1 then
    none
  else if status = 0 then
    some ("Controlled TLS handshake error: " ++ ssl_err_text)
  else
    some ("Fatal TLS handshake error: " ++ ssl_err_text)

/-!
## Windows Schannel handshake: `schannel_perform_handshake` (httpsclient.cc)

The handshake loop keeps a scratch buffer `ctx_buffer` of
`tls_record_size_limit` bytes and a valid length `ctx_bufsize`.  Each
iteration calls `InitializeSecurityContext`; if the second input buffer came
back as `SECBUFFER_EXTRA` with `cbBuffer = n`, the trailing `n` valid bytes
are copied to offset zero and `ctx_bufsize` becomes `n`, otherwise
`ctx_bufsize` is reset to zero.  On `SEC_I_CONTINUE_NEEDED` the output token
is sent over the raw socket, the library buffer freed, a full scratch buffer
is a protocol error, and otherwise one `recv` appends at `ctx_bufsize`.

Buffers are `List Nat` of bytes; the copy and the receive are modelled as
the list operations below.
-/

/-- The `pdnnet::tls_record_size_limit` (tls.hh): `16384 + 512`, the size of the
`ctx_buffer` scratch array in `schannel_perform_handshake`. -/
def tls_record_size_limit : Nat := 16384 + 512

/-- The `SEC_E_OK` status code. -/
def SEC_E_OK : Int := 0

/-- The `SEC_I_CONTINUE_NEEDED` status code (`0x00090312`). -/
def SEC_I_CONTINUE_NEEDED : Int := 590610

/-- The `std::memcpy(ctx_buffer, ctx_buffer + src, n)` shift in the
`SECBUFFER_EXTRA` branch: byte `i` of the result is byte `src + i` of `buf`
for `i < n` and is unchanged past the copied region.  (For `src > 0` the
destination lies strictly below the source, so the forward byte copy agrees
with `memmove`; for `src = 0` it is the identity on the copied region.) -/
def buf_shift (buf : List Nat) (src n : Nat) : List Nat :=
  ((buf.drop src).take n ++ buf.drop n).take buf.length

/-- The `recv(handle, ctx_buffer + pos, ..., 0)` write of `data` into `buf`
starting at offset `pos`: bytes `[pos, pos + data.length)` come from `data`,
all others are unchanged. -/
def buf_write (buf : List Nat) (pos : Nat) (data : List Nat) : List Nat :=
  (buf.take pos ++ data ++ buf.drop (pos + data.length)).take buf.length

/-- Handshake loop state (`httpsclient.cc`): the scratch buffer, its tracked
valid length `ctx_bufsize`, and the `building_context` flag set after the
first completed iteration. -/
structure SchannelState where
  ctx_buffer : List Nat
  ctx_bufsize : Nat
  building_context : Bool
deriving Repr, DecidableEq

/-- Oracle for one `InitializeSecurityContext` call: the returned status,
whether `input_bufs[1].BufferType` was rewritten to `SECBUFFER_EXTRA` (and
its `cbBuffer` count if so), and the library-allocated output token. -/
structure IscResult where
  status : Int
  extra : Option Nat
  out_token : List Nat
deriving Repr, DecidableEq

/-- Oracle for the environment moves of the `SEC_I_CONTINUE_NEEDED` branch:
the `writer.read` (send) result, the `FreeContextBuffer` status, the `recv`
return value, the bytes `recv` produced, and the opaque system error text
used by `winsock_error` when `recv` fails. -/
structure ContOracle where
  send_err : optional_error
  free_status : Int
  recv_ret : Int
  recv_data : List Nat
  sys : String
deriving Repr, DecidableEq

/-- Result of one iteration of the handshake `while` loop: either the
function returns (`done` with its `optional_error`), or the loop continues
with the next state. -/
inductive SchannelStep where
  | done (err : optional_error)
  | next (s : SchannelState)
deriving Repr, DecidableEq

/-- The leftover-byte bookkeeping (httpsclient.cc lines 158-171): if the
second input buffer became `SECBUFFER_EXTRA` reporting `n` unprocessed
bytes, shift those trailing `n` valid bytes to offset zero and set
`ctx_bufsize` to `n`; otherwise reset `ctx_bufsize` to zero. -/
def leftover_update (buf : List Nat) (bufsize : Nat) (extra : Option Nat) :
    List Nat × Nat :=
  match extra with
  | some n => (buf_shift buf (bufsize - n) n, n)
  | none => (buf, 0)

/-- One full iteration of the `schannel_perform_handshake` loop
(httpsclient.cc lines 122-214): leftover bookkeeping, then the dispatch on
the `InitializeSecurityContext` status.  `SEC_E_OK` returns success;
`SEC_I_CONTINUE_NEEDED` sends the output token, frees it, errors out on a
full scratch buffer, performs one `recv` appending at `ctx_bufsize`
(zero-byte read and negative return are errors), and re-enters the loop
with `building_context` set; any other status is a fatal platform error. -/
def handshake_iter (s : SchannelState) (isc : IscResult) (cont : ContOracle) :
    SchannelStep :=
  let lu := leftover_update s.ctx_buffer s.ctx_bufsize isc.extra
  if isc.status = SEC_E_OK then
    .done none
  else if isc.status = SEC_I_CONTINUE_NEEDED then
    match cont.send_err with
    | some e => .done (some e)
    | none =>
      if cont.free_status ≠ SEC_E_OK then
        .done (some (windows_error cont.sys "Failed to free token buffer"))
      else if lu.2 = tls_record_size_limit then
        .done (some "Error: Token buffer full, server not following TLS protocol")
      else if cont.recv_ret = 0 then
        .done (some "Server closed connection gracefully during handshake")
      else if cont.recv_ret < 0 then
        .done (some (winsock_error cont.sys "Could not read token back from server"))
      else
        .next
          { ctx_buffer := buf_write lu.1 lu.2 (cont.recv_data.take cont.recv_ret.toNat)
            ctx_bufsize := lu.2 + cont.recv_ret.toNat
            building_context := true }
  else
    .done (some (windows_error cont.sys "Security context creation failed"))

/-- Claim C1 formalised exactly as stated: whenever the second input buffer
was rewritten to `SECBUFFER_EXTRA` reporting `n` unprocessed bytes and the
loop goes on to a next iteration, that iteration begins with `ctx_bufsize`
equal to `n` and those `n` trailing valid bytes at offset zero; in every
other continuing iteration the tracked valid length begins at zero. -/
def claim_C1_stated : Prop :=
  ∀ (s : SchannelState) (isc : IscResult) (cont : ContOracle)
    (s' : SchannelState),
    handshake_iter s isc cont = .next s' →
    (∀ n, isc.extra = some n →
      s'.ctx_bufsize = n ∧
      (∀ i, i < n →
        s'.ctx_buffer.getD i 0 = s.ctx_buffer.getD (s.ctx_bufsize - n + i) 0)) ∧
    (isc.extra = none → s'.ctx_bufsize = 0)

/-!
## TLS writer: `tls_writer::operator()` (tls.hh lines 854-890)

The writer computes `n_total = sizeof(CharT) * text.size()` and rejects the
request up front when `n_total > INT_MAX`.  Otherwise it loops: each
`SSL_write` call either writes a positive number of bytes (decrementing the
remaining count) or fails; a failure whose `SSL_get_error` is
`SSL_ERROR_WANT_WRITE` retries when `allow_retry()` holds and is an error
otherwise; any other failure code is terminal.

The oracle is the list of `SSL_write` outcomes, one consumed per call.  The
model returns the total byte count handed successfully to `SSL_write`
together with the outcome; `pending` records that the loop would issue yet
another `SSL_write` but the oracle is exhausted.
-/

/-- The `SSL_ERROR_WANT_READ` (OpenSSL). -/
def SSL_ERROR_WANT_READ : Int := 2

/-- The `SSL_ERROR_WANT_WRITE` (OpenSSL). -/
def SSL_ERROR_WANT_WRITE : Int := 3

/-- One `SSL_write` (or `SSL_read`) call outcome: the call's return value
and the `SSL_get_error` code consulted when the return is nonpositive. -/
structure SslCallRes where
  ret : Int
  err : Int
deriving Repr, DecidableEq

/-- Outcome of a write loop. -/
inductive WriteOutcome where
  | ok
  | err (msg : String)
  | pending (n_remain : Nat)
deriving Repr, DecidableEq

/-- The `while (n_remain)` loop of `tls_writer::operator()`: recursion on
the oracle list (one entry per `SSL_write` call).  Returns the number of
bytes reported written by successful calls and the outcome. -/
def tls_write_loop (allow_retry : Bool) (err_text : Int → String) :
    List SslCallRes → Nat → Nat × WriteOutcome
  | _, 0 => (0, .ok)
  | [], n + 1 => (0, .pending (n + 1))
  | c :: evs, n + 1 =>
    if c.ret ≤ 0 then
      if c.err = SSL_ERROR_WANT_WRITE then
        if !allow_retry then
          (0, .err "TLS write retryable but writer has disabled retries")
        else
          tls_write_loop allow_retry err_text evs (n + 1)
      else
        (0, .err (openssl_ssl_error_string (err_text c.err) "TLS write failed"))
    else
      let w := c.ret.toNat
      let rest := tls_write_loop allow_retry err_text evs (n + 1 - w)
      (w + rest.1, rest.2)

/-- Model of `tls_writer::operator()(text)`: `n_total` is
`sizeof(CharT) * text.size()`; oversize requests are rejected before any
`SSL_write` call, otherwise the write loop runs against the oracle. -/
def tls_writer.write (allow_retry : Bool) (err_text : Int → String)
    (evs : List SslCallRes) (n_total : Nat) : Nat × WriteOutcome :=
  if n_total > INT_MAX then
    (0, .err ("Message length " ++ toString n_total ++
      " exceeds max allowed length " ++ toString INT_MAX))
  else
    tls_write_loop allow_retry err_text evs n_total

/-!
## Raw socket writer: `socket_writer::read` (socket.hh lines 1017-1049)

On the Windows backend (`_WIN32`), where `::send` takes an `int` length, the
request is rejected up front when the byte count exceeds `INT_MAX`.  The
loop then issues `send` calls: `SOCKET_ERROR` (negative) is a platform
error, otherwise the returned count is added to `n_sent` and subtracted from
`n_remain`.  After the loop, the write end is shut down when `close_write_`
was requested.  The model also reports whether `shutdown(write)` ran.
-/

/-- The `while (n_remain)` send loop of `socket_writer::read` (Windows
backend), recursing on the oracle list of `::send` return values. -/
def socket_write_loop (sys : String) : List Int → Nat → Nat × WriteOutcome
  | _, 0 => (0, .ok)
  | [], n + 1 => (0, .pending (n + 1))
  | r :: evs, n + 1 =>
    if r < 0 then
      (0, .err (winsock_error sys "send() failure"))
    else
      let w := r.toNat
      let rest := socket_write_loop sys evs (n + 1 - w)
      (w + rest.1, rest.2)

/-- Model of `socket_writer::read(text)` on the Windows backend: returns
(bytes sent, outcome, whether `shutdown(write)` was performed). -/
def socket_writer.read (close_write : Bool) (sys : String) (evs : List Int)
    (n_bytes : Nat) : Nat × WriteOutcome × Bool :=
  if n_bytes > INT_MAX then
    (0, .err ("Message length " ++ toString n_bytes ++
      " exceeds max allowed length " ++ toString INT_MAX), false)
  else
    let r := socket_write_loop sys evs n_bytes
    match r.2 with
    | .ok => (r.1, .ok, close_write)
    | o => (r.1, o, false)

/-!
## Raw socket reader: `socket_reader::write` (socket.hh lines 867-899)

A do/while loop: each iteration polls the socket for `POLLIN` with the
configured timeout — if the poll times out the function returns success with
whatever was accumulated; otherwise one `read` runs: a negative return is a
platform error, and the read bytes are appended to the output stream; the
loop exits successfully when a read returns zero bytes.

The oracle is the list of per-iteration events; `diverge` records that the
oracle is exhausted while the loop would keep polling.
-/

/-- One iteration's environment move for `socket_reader::write`: the poll
timed out, or the socket was readable and `read` returned `n` with the given
buffer contents. -/
inductive ReadEvent where
  | timeout
  | recv (n : Int) (data : List Nat)
deriving Repr, DecidableEq

/-- Result of `socket_reader::write`: success with the accumulated bytes, an
error, or an exhausted oracle while the loop continues. -/
inductive ReadResult where
  | ok (acc : List Nat)
  | err (msg : String)
  | diverge
deriving Repr, DecidableEq

/-- The do/while loop of `socket_reader::write` (POSIX branch), recursing on
the event list with the bytes accumulated so far.  A timeout returns the
accumulation; a negative `read` is an error; otherwise `n` bytes are
appended and the loop exits successfully when `n = 0`. -/
def socket_reader.write (sys : String) :
    List ReadEvent → List Nat → ReadResult
  | [], _acc => .diverge
  | .timeout :: _, acc => .ok acc
  | .recv n data :: rest, acc =>
    if n < 0 then
      .err (errno_error sys "read() failure")
    else if n = 0 then
      .ok acc
    else
      socket_reader.write sys rest (acc ++ data.take n.toNat)

/-- The bytes delivered by a prefix of successful read events (used to state
what `socket_reader::write` accumulates). -/
def read_events_data : List ReadEvent → List Nat
  | [] => []
  | .timeout :: rest => read_events_data rest
  | .recv n data :: rest => data.take n.toNat ++ read_events_data rest

/-!
## Server parameters (`server.hh`): `server_params`

Holds the requested port, the maximum pending-connection queue length and
the maximum concurrency used by both server shapes.
-/

/-- The `pdnnet::server_params`. -/
structure server_params where
  port : Nat
  max_pending : Nat
  max_concurrency : Nat
deriving Repr, DecidableEq

/-!
## Echo server (`echoserver.hh`)

State: a listening socket (`none` when invalid/default-constructed), the
bound address, the atomic `running_` flag, the connection-thread deque
(modelled as the list of accepted connection handles, front first), and the
`max_threads_` / `max_pending_` parameters.

`start` refuses to run when already running (`EXIT_FAILURE`).  Otherwise it
sets up the listening socket and enters the accept loop: on each accepted
connection, when the thread deque is at `max_threads_` capacity the front
(oldest) thread is joined and popped before the new connection's thread is
appended at the back.  `stop` just clears the running flag.
-/

/-- The `pdnnet::echoserver` state.  The thread deque holds the client socket
handle owned by each spawned thread, oldest first. -/
structure EchoState where
  socket : Option Nat
  address : Nat
  running : Bool
  thread_queue : List Nat
  max_threads : Nat
  max_pending : Nat
deriving Repr, DecidableEq

/-- A default-constructed `echoserver`: not running, invalid socket, empty
thread deque.  (`address_` is an indeterminate `sockaddr_in`, passed in.) -/
def echoserver.init (addr : Nat) : EchoState :=
  { socket := none, address := addr, running := false, thread_queue := []
    max_threads := 0, max_pending := 0 }

/-- The `echoserver::stop` (echoserver.hh lines 205-208): `running_ = false;`,
a `noexcept` store into the atomic flag. -/
def echoserver.stop (s : EchoState) : EchoState :=
  { s with running := false }

/-- The capacity check and thread admission of `echoserver::start`
(echoserver.hh lines 166-192): when the deque size equals `max_threads` the
front thread is joined and popped, then the new connection's thread is
emplaced at the back.  Returns (joined threads, new deque). -/
def echoserver.evict_push (max_threads : Nat) (queue : List Nat) (conn : Nat) :
    List Nat × List Nat :=
  if queue.length = max_threads then
    (queue.take 1, queue.drop 1 ++ [conn])
  else
    ([], queue ++ [conn])

/-- One accept-loop iteration event for the echo server: the `wait_pollin`
poll timed out (`continue`), or a client connection was accepted. -/
inductive EchoEv where
  | timeout
  | conn (handle : Nat)
deriving Repr, DecidableEq

/-- One iteration of the echo server accept loop over the running pair
(joined-so-far, thread deque). -/
def echoserver.loop_step (max_threads : Nat) (st : List Nat × List Nat)
    (ev : EchoEv) : List Nat × List Nat :=
  match ev with
  | .timeout => st
  | .conn h =>
    let r := echoserver.evict_push max_threads st.2 h
    (st.1 ++ r.1, r.2)

/-- The `echoserver::set_state` on its success path: fresh listening socket,
resolved address, parameters stored, marked running.  (`bind`,
`getsockname` and `listen` failures throw and are outside the claims.) -/
def echoserver.set_state (s : EchoState) (params : server_params)
    (new_socket resolved_addr : Nat) : EchoState :=
  { s with
    socket := some new_socket
    address := resolved_addr
    max_threads := params.max_concurrency
    max_pending := params.max_pending
    running := true }

/-- The `echoserver::reset_state`: joins all queued threads, resets the socket
and address, clears the running flag, and empties the thread deque. -/
def echoserver.reset_state (s : EchoState) : EchoState :=
  { s with socket := none, address := 0, running := false, thread_queue := [] }

/-- Model of `echoserver::start` (echoserver.hh lines 152-197): refuse with
`EXIT_FAILURE` when already running; otherwise set up state, fold the accept
loop over the event list (the list ending models `running_` being observed
false), then reset state and return `EXIT_SUCCESS`. -/
def echoserver.start (s : EchoState) (params : server_params)
    (new_socket resolved_addr : Nat) (evs : List EchoEv) : EchoState × Int :=
  if s.running then
    (s, EXIT_FAILURE)
  else
    let s1 := echoserver.set_state s params new_socket resolved_addr
    let r := evs.foldl (echoserver.loop_step s1.max_threads) ([], s1.thread_queue)
    (echoserver.reset_state { s1 with thread_queue := r.2 }, EXIT_SUCCESS)

/-!
## Generic IPv4 server (`server.hh`)

State: listening socket, address, `max_pending_`, atomic `running_` flag.
`start` throws `std::runtime_error{"Server is already running"}` when
already running; otherwise (foreground path) it sets up the listening state
and loops, polling and serving each accepted connection through the virtual
`serve` hook: a `false` return from `serve` tears down and returns
`EXIT_FAILURE`; `stop()` observed between iterations tears down and returns
`EXIT_SUCCESS`.  `stop` just clears the running flag.
-/

/-- The `pdnnet::ipv4_server` state. -/
structure Ipv4State where
  socket : Option Nat
  address : Nat
  max_pending : Nat
  running : Bool
deriving Repr, DecidableEq

/-- A default-constructed `ipv4_server`: `running_{}` is false; the socket
is the invalid default; `address_` is indeterminate, passed in. -/
def ipv4_server.init (addr : Nat) : Ipv4State :=
  { socket := none, address := addr, max_pending := 0, running := false }

/-- The `ipv4_server::stop` (server.hh lines 290-293): `running_ = false;`,
`noexcept`. -/
def ipv4_server.stop (s : Ipv4State) : Ipv4State :=
  { s with running := false }

/-- One accept-loop iteration event for the generic server: poll timeout, or
an accepted connection together with the `serve` hook's verdict. -/
inductive ServeEv where
  | timeout
  | conn (serve_ok : Bool)
deriving Repr, DecidableEq

/-- The `ipv4_server::reset_state`: destroy the socket, clear the running
flag. -/
def ipv4_server.reset_state (s : Ipv4State) : Ipv4State :=
  { s with socket := none, running := false }

/-- The `while (running_)` accept loop of `ipv4_server::start`: the event
list ending models `running_` being observed false. -/
def ipv4_server.loop (s : Ipv4State) : List ServeEv → Ipv4State × Int
  | [] => (ipv4_server.reset_state s, EXIT_SUCCESS)
  | .timeout :: evs => ipv4_server.loop s evs
  | .conn ok :: evs =>
    if ok then ipv4_server.loop s evs
    else (ipv4_server.reset_state s, EXIT_FAILURE)

/-- Model of `ipv4_server::start` (server.hh lines 231-259, foreground
path; the `background` thread spawn is not modelled): when already running
it throws `std::runtime_error{"Server is already running"}` before touching
any state, reported as `.error` with the state unchanged; otherwise it sets
up the listening state and runs the accept loop. -/
def ipv4_server.start (s : Ipv4State) (params : server_params)
    (new_socket resolved_addr : Nat) (evs : List ServeEv) :
    Ipv4State × Except String Int :=
  if s.running then
    (s, .error "Server is already running")
  else
    let s1 : Ipv4State :=
      { socket := some new_socket, address := resolved_addr
        max_pending := params.max_pending, running := true }
    let r := ipv4_server.loop s1 evs
    (r.1, .ok r.2)

/-!
## Task executor (`executor.hh`): `thread_executor`

The executor shares one mutex-guarded FIFO deque of tasks among its
workers.  `post` appends at the back unconditionally (there is no running
check).  A worker iteration waits until the queue is non-empty or the pool
is stopped; when stopped it exits without dequeuing, otherwise it removes
exactly one task from the front and runs it.  `stop` clears the running
flag.

`start` is a no-op when already running; otherwise it marks the pool
running and then move-assigns a fresh `std::thread` onto every entry of the
`threads_` vector.  The constructor runs `start()` itself, so after the
first `start()` every entry holds a joinable `std::thread`, and the workers
stay joinable after they observe `stop()` and return, because `join()` is
private and called only from the destructor.  `std::thread`'s move
assignment calls `std::terminate()` when the target is still joinable, so
any `start()` after `stop()` on an executor with at least one worker aborts
the process.  The state therefore tracks the worker-vector size, whether
its `std::thread` entries have been spawned (are joinable), and whether
`std::terminate` was reached; a terminated process performs no further
operations, so `step` freezes a terminated state.

Since the mutex serialises every queue access, a run of the pool is a
sequence of these atomic operations; tasks are identified by `Nat` ids and
the model tracks the order in which they were posted and dequeued.
-/

/-- The `pdnnet::thread_executor` shared state: the running flag, the task
deque (front first), the posting and dequeue-for-execution histories used to
state ordering properties, the size of the `threads_` vector, whether its
`std::thread` entries are joinable (`spawned`), and whether the process hit
`std::terminate`. -/
structure ExecState where
  running : Bool
  tasks : List Nat
  posted : List Nat
  executed : List Nat
  n_workers : Nat
  spawned : Bool
  terminated : Bool
deriving Repr, DecidableEq

/-- One serialised operation on the executor's shared state. -/
inductive ExecOp where
  | post (t : Nat)
  | worker
  | stop
  | start
deriving Repr, DecidableEq

/-- The `thread_executor::post` (executor.hh lines 151-163): lock, `push_back`
the task, unlock, notify one waiter.  No check of the running flag. -/
def thread_executor.post (s : ExecState) (t : Nat) : ExecState :=
  { s with tasks := s.tasks ++ [t], posted := s.posted ++ [t] }

/-- The `thread_executor::stop` (executor.hh lines 133-142). -/
def thread_executor.stop (s : ExecState) : ExecState :=
  { s with running := false }

/-- The `thread_executor::start` (executor.hh lines 89-124): no-op when
already running; otherwise mark running, then move-assign a new
`std::thread` onto each `threads_` entry.  When the entries were already
spawned (still joinable — the case after any previous `start()`, since
`join()` only happens in the destructor) and there is at least one of them,
the first move assignment calls `std::terminate`; otherwise the workers are
(re)spawned, leaving every entry joinable when the vector is non-empty. -/
def thread_executor.start (s : ExecState) : ExecState :=
  if s.running then s
  else if s.spawned ∧ 0 < s.n_workers then
    { s with running := true, terminated := true }
  else
    { s with running := true, spawned := s.spawned || !(s.n_workers == 0) }

/-- One worker-loop iteration (executor.hh lines 101-121): the worker wakes
with the lock held once the queue is non-empty or the pool stopped; when
stopped it returns without touching the queue; otherwise it moves the front
task out, pops it, and executes it. -/
def thread_executor.worker_iter (s : ExecState) : ExecState :=
  if s.running then
    match s.tasks with
    | [] => s
    | t :: rest => { s with tasks := rest, executed := s.executed ++ [t] }
  else
    s

/-- Interleaved execution of serialised executor operations.  A state that
reached `std::terminate` performs no further operations. -/
def thread_executor.step (s : ExecState) (op : ExecOp) : ExecState :=
  if s.terminated then s
  else
    match op with
    | .post t => thread_executor.post s t
    | .worker => thread_executor.worker_iter s
    | .stop => thread_executor.stop s
    | .start => thread_executor.start s

/-- Run a sequence of serialised executor operations. -/
def thread_executor.run (s : ExecState) (ops : List ExecOp) : ExecState :=
  ops.foldl thread_executor.step s

/-- A freshly constructed `thread_executor{n}` after its constructor's
`start()` call: running, no tasks, empty histories, and `n` spawned
(joinable) workers. -/
def thread_executor.init (n : Nat) : ExecState :=
  { running := true, tasks := [], posted := [], executed := []
    n_workers := n, spawned := !(n == 0), terminated := false }

/-- Claim C10 formalised as stated: in every live stopped state, `post`
appends the task, worker wakeups neither execute nor drop it, and after a
subsequent `start()` some number of worker iterations executes it. -/
def claim_C10_stated : Prop :=
  ∀ (s : ExecState) (t : Nat),
    s.terminated = false → s.running = false →
    (thread_executor.post s t).tasks = s.tasks ++ [t] ∧
    (∀ k, thread_executor.worker_iter^[k] (thread_executor.post s t) =
      thread_executor.post s t) ∧
    (∃ k, t ∈ (thread_executor.run (thread_executor.post s t)
      (.start :: List.replicate k .worker)).executed)

/-!
## Concrete inputs for counterexamples and witnesses

`cex_*` is a handshake-loop iteration with the real scratch-buffer size: the
buffer holds 4 valid bytes, `InitializeSecurityContext` returns
`SEC_I_CONTINUE_NEEDED` and rewrites the second input buffer to
`SECBUFFER_EXTRA` with 2 unprocessed bytes, and the subsequent `recv`
returns 3 bytes.  `w*` are small states used to instantiate proved theorems
on concrete runs.
-/

/-- Scratch buffer of the real size (`tls_record_size_limit` bytes). -/
def cex_buf : List Nat := List.replicate tls_record_size_limit 0

/-- Iteration state: 4 valid bytes buffered. -/
def cex_state : SchannelState :=
  { ctx_buffer := cex_buf, ctx_bufsize := 4, building_context := true }

/-- The `InitializeSecurityContext` continues and reports 2 extra bytes. -/
def cex_isc : IscResult :=
  { status := SEC_I_CONTINUE_NEEDED, extra := some 2, out_token := [] }

/-- The send and free succeed and `recv` returns 3 bytes. -/
def cex_cont : ContOracle :=
  { send_err := none, free_status := SEC_E_OK, recv_ret := 3
    recv_data := [7, 8, 9], sys := "" }

/-- The state the loop actually continues with on the `cex_*` input: the 2
carried bytes at offset zero, the 3 received bytes behind them, and
`ctx_bufsize = 2 + 3 = 5`. -/
def cex_next : SchannelState :=
  { ctx_buffer :=
      buf_write
        (leftover_update cex_state.ctx_buffer cex_state.ctx_bufsize cex_isc.extra).1
        (leftover_update cex_state.ctx_buffer cex_state.ctx_bufsize cex_isc.extra).2
        (cex_cont.recv_data.take cex_cont.recv_ret.toNat)
    ctx_bufsize :=
      (leftover_update cex_state.ctx_buffer cex_state.ctx_bufsize cex_isc.extra).2 +
        cex_cont.recv_ret.toNat
    building_context := true }

/-- Small handshake state for witnesses: 4-byte buffer, all 4 bytes valid. -/
def wstate : SchannelState :=
  { ctx_buffer := [1, 2, 3, 4], ctx_bufsize := 4, building_context := true }

/-- Witness ISC outcome: continue with 2 extra bytes. -/
def wisc : IscResult :=
  { status := SEC_I_CONTINUE_NEEDED, extra := some 2, out_token := [] }

/-- Witness continue-branch oracle: `recv` returns 2 bytes. -/
def wcont : ContOracle :=
  { send_err := none, free_status := SEC_E_OK, recv_ret := 2
    recv_data := [7, 8], sys := "" }

/-- Witness continue-branch oracle: `recv` returns 0 (peer closed). -/
def wcont0 : ContOracle :=
  { send_err := none, free_status := SEC_E_OK, recv_ret := 0
    recv_data := [], sys := "" }

/-- A reachable stopped executor: `thread_executor{1}` after `stop()`.  Its
single worker was spawned by the constructor's `start()` and is still
joinable. -/
def cex_exec : ExecState := thread_executor.stop (thread_executor.init 1)

/-- Stopped executor state used by the C10 witness: task 9 queued, two
spawned workers. -/
def wexec : ExecState :=
  { running := false, tasks := [9], posted := [9], executed := []
    n_workers := 2, spawned := true, terminated := false }

/-!
## Theorems

Helper lemmas about the buffer operations and the handshake iteration come
first, then one theorem per specification claim.
-/

/-- The `buf_shift` preserves the buffer length when the copied region fits. -/
theorem buf_shift_length (buf : List Nat) (src n : Nat)
    (h : src + n ≤ buf.length) : (buf_shift buf src n).length = buf.length := by
  unfold buf_shift
  simp [List.length_take, List.length_append, List.length_drop]
  omega

/-- After `buf_shift`, the first `n` bytes are the bytes that sat at
offsets `[src, src + n)`. -/
theorem buf_shift_take (buf : List Nat) (src n : Nat)
    (h : src + n ≤ buf.length) :
    (buf_shift buf src n).take n = (buf.drop src).take n := by
  unfold buf_shift
  rw [List.take_take, min_eq_left (by omega),
    List.take_append_of_le_length
      (by simp [List.length_take, List.length_drop]; omega),
    List.take_take, min_self]

/-- The `buf_write` preserves the buffer length when the written region fits. -/
theorem buf_write_length (buf data : List Nat) (pos : Nat)
    (h : pos + data.length ≤ buf.length) :
    (buf_write buf pos data).length = buf.length := by
  unfold buf_write
  simp [List.length_take, List.length_append, List.length_drop]
  omega

/-- The `buf_write` leaves the bytes below the write offset unchanged. -/
theorem buf_write_take (buf data : List Nat) (pos : Nat)
    (h : pos + data.length ≤ buf.length) :
    (buf_write buf pos data).take pos = buf.take pos := by
  unfold buf_write
  rw [List.take_take, min_eq_left (by omega),
    List.take_append_of_le_length
      (by simp [List.length_take, List.length_append]; omega),
    List.take_append_of_le_length (by simp [List.length_take]; omega),
    List.take_take, min_self]

/-- The `buf_write` places exactly `data` at offsets `[pos, pos + |data|)`. -/
theorem buf_write_drop_take (buf data : List Nat) (pos : Nat)
    (h : pos + data.length ≤ buf.length) :
    ((buf_write buf pos data).drop pos).take data.length = data := by
  unfold buf_write
  rw [List.drop_take, List.take_take, min_eq_left (by omega)]
  rw [List.drop_append_of_le_length
    (by simp [List.length_take, List.length_append]; omega)]
  rw [List.drop_append_of_le_length (by simp [List.length_take]; omega)]
  rw [List.drop_eq_nil_of_le (by simp [List.length_take]), List.nil_append]
  rw [List.take_append_of_le_length (le_refl _), List.take_length]

/-- Inversion: a continuing handshake iteration happens only on
`SEC_I_CONTINUE_NEEDED` with a successful send and free, a non-full scratch
buffer and a positive `recv`, and the next state is exactly the one built
from the bookkeeping pair. -/
theorem handshake_iter_next_inv (s : SchannelState) (isc : IscResult)
    (cont : ContOracle) (s' : SchannelState)
    (h : handshake_iter s isc cont = .next s') :
    isc.status = SEC_I_CONTINUE_NEEDED ∧
    cont.send_err = none ∧
    cont.free_status = SEC_E_OK ∧
    (leftover_update s.ctx_buffer s.ctx_bufsize isc.extra).2 ≠
      tls_record_size_limit ∧
    0 < cont.recv_ret ∧
    s' = { ctx_buffer :=
             buf_write (leftover_update s.ctx_buffer s.ctx_bufsize isc.extra).1
               (leftover_update s.ctx_buffer s.ctx_bufsize isc.extra).2
               (cont.recv_data.take cont.recv_ret.toNat)
           ctx_bufsize :=
             (leftover_update s.ctx_buffer s.ctx_bufsize isc.extra).2 +
               cont.recv_ret.toNat
           building_context := true } := by
  unfold handshake_iter at h
  by_cases h1 : isc.status = SEC_E_OK
  · rw [if_pos h1] at h
    exact absurd h (by simp)
  · rw [if_neg h1] at h
    by_cases h2 : isc.status = SEC_I_CONTINUE_NEEDED
    · rw [if_pos h2] at h
      cases hsend : cont.send_err with
      | some e =>
        rw [hsend] at h
        exact absurd h (by simp)
      | none =>
        rw [hsend] at h
        simp only at h
        by_cases h3 : cont.free_status = SEC_E_OK
        · rw [if_neg (by simp [h3])] at h
          by_cases h4 : (leftover_update s.ctx_buffer s.ctx_bufsize isc.extra).2 =
              tls_record_size_limit
          · rw [if_pos h4] at h
            exact absurd h (by simp)
          · rw [if_neg h4] at h
            by_cases h5 : cont.recv_ret = 0
            · rw [if_pos h5] at h
              exact absurd h (by simp)
            · rw [if_neg h5] at h
              by_cases h6 : cont.recv_ret < 0
              · rw [if_pos h6] at h
                exact absurd h (by simp)
              · rw [if_neg h6] at h
                refine ⟨h2, rfl, h3, h4, by omega, ?_⟩
                cases h
                rfl
        · rw [if_pos (by simp [h3])] at h
          exact absurd h (by simp)
    · rw [if_neg h2] at h
      exact absurd h (by simp)

/-- The handshake loop really takes the `cex_*` iteration to `cex_next`. -/
theorem handshake_iter_cex_step :
    handshake_iter cex_state cex_isc cex_cont = .next cex_next := rfl

/-- The `cex_next` begins the next iteration with `ctx_bufsize = 5`, not with
the 2 bytes the `SECBUFFER_EXTRA` rewrite reported. -/
theorem cex_next_bufsize : cex_next.ctx_bufsize = 5 := rfl

/-- C1 (counterexample): the claim as stated is false.  On an iteration
whose second input buffer reports 2 extra bytes and whose `recv` then
returns 3 bytes, the next iteration begins with `ctx_bufsize = 2 + 3 = 5`,
not 2: the continue branch always appends the newly received bytes before
the loop re-enters. -/
theorem claim_C1_refuted : ¬ claim_C1_stated := by
  intro h
  have h2 := ((h cex_state cex_isc cex_cont cex_next handshake_iter_cex_step).1
    2 rfl).1
  rw [cex_next_bufsize] at h2
  exact absurd h2 (by decide)

/-- C1 (amended): after the leftover bookkeeping of an iteration whose
second input buffer was rewritten to `SECBUFFER_EXTRA` reporting `n`
unprocessed bytes, the tracked valid length is `n` and the first `n` bytes
of the scratch buffer are exactly the `n` trailing bytes of the previous
valid region; in every other iteration the tracked valid length is reset to
zero.  If the iteration then continues, the `recv` of the continue branch
appends `n_read > 0` bytes, so the next iteration begins with the `n`
carried bytes still at offset zero and `ctx_bufsize = n + n_read`. -/
theorem schannel_leftover_invariant (s : SchannelState) (isc : IscResult)
    (cont : ContOracle) (n : Nat)
    (hcap : s.ctx_bufsize ≤ s.ctx_buffer.length) :
    (isc.extra = some n → n ≤ s.ctx_bufsize →
      (leftover_update s.ctx_buffer s.ctx_bufsize isc.extra).2 = n ∧
      ((leftover_update s.ctx_buffer s.ctx_bufsize isc.extra).1).take n =
        (s.ctx_buffer.drop (s.ctx_bufsize - n)).take n) ∧
    (isc.extra = none →
      (leftover_update s.ctx_buffer s.ctx_bufsize isc.extra).2 = 0) ∧
    (∀ s', isc.extra = some n → n ≤ s.ctx_bufsize →
      n + cont.recv_ret.toNat ≤ s.ctx_buffer.length →
      handshake_iter s isc cont = .next s' →
      s'.ctx_bufsize = n + cont.recv_ret.toNat ∧
      0 < cont.recv_ret ∧
      s'.ctx_buffer.take n = (s.ctx_buffer.drop (s.ctx_bufsize - n)).take n) := by
  refine ⟨?_, ?_, ?_⟩
  · intro hn hle
    refine ⟨by simp [leftover_update, hn], ?_⟩
    simp only [leftover_update, hn]
    exact buf_shift_take s.ctx_buffer (s.ctx_bufsize - n) n (by omega)
  · intro hn
    simp [leftover_update, hn]
  · intro s' hn hle hlen hnext
    obtain ⟨hst, hsend, hfree, hfull, hpos, hs'⟩ :=
      handshake_iter_next_inv s isc cont s' hnext
    have hlu2 : (leftover_update s.ctx_buffer s.ctx_bufsize isc.extra).2 = n := by
      simp [leftover_update, hn]
    have hlu1 : (leftover_update s.ctx_buffer s.ctx_bufsize isc.extra).1 =
        buf_shift s.ctx_buffer (s.ctx_bufsize - n) n := by
      simp [leftover_update, hn]
    have hshift_len : (buf_shift s.ctx_buffer (s.ctx_bufsize - n) n).length =
        s.ctx_buffer.length :=
      buf_shift_length s.ctx_buffer (s.ctx_bufsize - n) n (by omega)
    subst hs'
    refine ⟨by rw [hlu2], hpos, ?_⟩
    simp only [hlu1, hlu2]
    rw [buf_write_take _ _ n
      (by
        rw [hshift_len]
        have := List.length_take_le cont.recv_ret.toNat cont.recv_data
        omega)]
    exact buf_shift_take s.ctx_buffer (s.ctx_bufsize - n) n (by omega)

/-- Witness for the amended C1 theorem: on a 4-byte buffer holding bytes
`[1, 2, 3, 4]` with 2 extra bytes reported and 2 bytes then received, the
bookkeeping yields valid length 2 with the trailing bytes `[3, 4]` at offset
zero, and the next iteration starts from `ctx_bufsize = 4` with `[3, 4]`
still at offset zero. -/
theorem schannel_leftover_invariant_witness :
    ((leftover_update [1, 2, 3, 4] 4 (some 2)).2 = 2 ∧
      ((leftover_update [1, 2, 3, 4] 4 (some 2)).1).take 2 =
        (([1, 2, 3, 4] : List Nat).drop (4 - 2)).take 2) ∧
    ((⟨[3, 4, 7, 8], 4, true⟩ : SchannelState).ctx_bufsize =
        2 + (2 : Int).toNat ∧
      (0 : Int) < 2 ∧
      (⟨[3, 4, 7, 8], 4, true⟩ : SchannelState).ctx_buffer.take 2 =
        (([1, 2, 3, 4] : List Nat).drop (4 - 2)).take 2) :=
  ⟨(schannel_leftover_invariant wstate wisc wcont 2 (by decide)).1 rfl
      (by decide),
   (schannel_leftover_invariant wstate wisc wcont 2 (by decide)).2.2
      ⟨[3, 4, 7, 8], 4, true⟩ rfl (by decide) (by decide) (by decide)⟩

/-- C2: in the `SEC_I_CONTINUE_NEEDED` case, once the output token was sent
and freed: a completely full scratch buffer is a protocol error (the loop
does not continue); otherwise the single `recv` appends at the tracked
valid length — a zero-byte read reports the peer closing the connection
during the handshake, a negative return reports a platform (Winsock) error,
and a positive return of `n_read` bytes continues the loop with the valid
length increased by exactly `n_read` and the received bytes placed at
offsets `[m, m + n_read)`. -/
theorem schannel_continue_case (s : SchannelState) (isc : IscResult)
    (cont : ContOracle) (b : List Nat) (m : Nat)
    (hlu : leftover_update s.ctx_buffer s.ctx_bufsize isc.extra = (b, m))
    (hst : isc.status = SEC_I_CONTINUE_NEEDED)
    (hsend : cont.send_err = none)
    (hfree : cont.free_status = SEC_E_OK) :
    (m = tls_record_size_limit →
      handshake_iter s isc cont =
        .done (some "Error: Token buffer full, server not following TLS protocol")) ∧
    (m ≠ tls_record_size_limit → cont.recv_ret = 0 →
      handshake_iter s isc cont =
        .done (some "Server closed connection gracefully during handshake")) ∧
    (m ≠ tls_record_size_limit → cont.recv_ret < 0 →
      handshake_iter s isc cont =
        .done (some (winsock_error cont.sys "Could not read token back from server"))) ∧
    (m ≠ tls_record_size_limit → 0 < cont.recv_ret →
      handshake_iter s isc cont =
        .next { ctx_buffer := buf_write b m (cont.recv_data.take cont.recv_ret.toNat)
                ctx_bufsize := m + cont.recv_ret.toNat
                building_context := true }) ∧
    (m + cont.recv_ret.toNat ≤ b.length →
      (buf_write b m (cont.recv_data.take cont.recv_ret.toNat)).take m =
        b.take m ∧
      (cont.recv_ret.toNat ≤ cont.recv_data.length →
        ((buf_write b m (cont.recv_data.take cont.recv_ret.toNat)).drop m).take
          cont.recv_ret.toNat = cont.recv_data.take cont.recv_ret.toNat)) := by
  have hbody : handshake_iter s isc cont =
      (if cont.free_status ≠ SEC_E_OK then
        .done (some (windows_error cont.sys "Failed to free token buffer"))
      else if m = tls_record_size_limit then
        .done (some "Error: Token buffer full, server not following TLS protocol")
      else if cont.recv_ret = 0 then
        .done (some "Server closed connection gracefully during handshake")
      else if cont.recv_ret < 0 then
        .done (some (winsock_error cont.sys "Could not read token back from server"))
      else
        .next
          { ctx_buffer := buf_write b m (cont.recv_data.take cont.recv_ret.toNat)
            ctx_bufsize := m + cont.recv_ret.toNat
            building_context := true }) := by
    unfold handshake_iter
    rw [hlu, hst, hsend]
    rw [if_neg (by decide)]
    rw [if_pos rfl]
  rw [hbody, if_neg (by simp [hfree])]
  refine ⟨?_, ?_, ?_, ?_, ?_⟩
  · intro hm
    rw [if_pos hm]
  · intro hm h0
    rw [if_neg hm, if_pos h0]
  · intro hm hneg
    rw [if_neg hm, if_neg (by omega), if_pos hneg]
  · intro hm hpos
    rw [if_neg hm, if_neg (by omega), if_neg (by omega)]
  · intro hlen
    have hdlen : (cont.recv_data.take cont.recv_ret.toNat).length ≤
        cont.recv_ret.toNat := List.length_take_le _ _
    refine ⟨buf_write_take b _ m (by omega), ?_⟩
    intro hd
    have hdl : (cont.recv_data.take cont.recv_ret.toNat).length =
        cont.recv_ret.toNat := by
      rw [List.length_take]
      omega
    have hw := buf_write_drop_take b (cont.recv_data.take cont.recv_ret.toNat) m
      (by omega)
    rw [hdl] at hw
    exact hw

/-- Witness for the C2 theorem: on the 4-byte buffer `[1, 2, 3, 4]` with 2
extra bytes carried over, a zero-byte `recv` makes the iteration return the
peer-closed-during-handshake error. -/
theorem schannel_continue_case_witness :
    handshake_iter wstate wisc wcont0 =
      .done (some "Server closed connection gracefully during handshake") :=
  (schannel_continue_case wstate wisc wcont0 [3, 4, 3, 4] 2 (by decide)
    rfl rfl rfl).2.1 (by decide) rfl

/-- C3: once `SSL_set_fd` succeeded, `unique_tls_layer::handshake` returns
no error exactly when `SSL_connect` returned 1; a return of 0 is reported
with the controlled-failure label and any other return with the
fatal-failure label, and the two labels produce distinct messages for the
same rendered TLS error. -/
theorem tls_handshake_return_contract (fd_err ssl_err : String) (status : Int) :
    (unique_tls_layer.handshake true fd_err status ssl_err = none ↔
      status = 1) ∧
    (status = 0 →
      unique_tls_layer.handshake true fd_err status ssl_err =
        some ("Controlled TLS handshake error: " ++ ssl_err)) ∧
    (status ≠ 0 → status ≠ 1 →
      unique_tls_layer.handshake true fd_err status ssl_err =
        some ("Fatal TLS handshake error: " ++ ssl_err)) ∧
    (∀ e : String,
      "Controlled TLS handshake error: " ++ e ≠
        "Fatal TLS handshake error: " ++ e) := by
  refine ⟨?_, ?_, ?_, ?_⟩
  · constructor
    · intro h
      by_cases h1 : status = 1
      · exact h1
      · exfalso
        by_cases h0 : status = 0 <;>
          simp [unique_tls_layer.handshake, h0, h1] at h
    · intro h
      simp [unique_tls_layer.handshake, h]
  · intro h
    simp [unique_tls_layer.handshake, h]
  · intro h0 h1
    simp [unique_tls_layer.handshake, h0, h1]
  · intro e h
    have hlen := congrArg String.length h
    simp [String.length_append] at hlen
    exact absurd hlen (by decide)

/-- Witness for the C3 theorem: `SSL_connect` returning 0 yields the
controlled label and returning -1 the fatal label. -/
theorem tls_handshake_return_contract_witness :
    (unique_tls_layer.handshake true "x" 0 "y" =
      some ("Controlled TLS handshake error: " ++ "y")) ∧
    (unique_tls_layer.handshake true "x" (-1) "y" =
      some ("Fatal TLS handshake error: " ++ "y")) :=
  ⟨(tls_handshake_return_contract "x" "y" 0).2.1 rfl,
   (tls_handshake_return_contract "x" "y" (-1)).2.2.1 (by decide) (by decide)⟩

/-- C4: a payload longer than `INT_MAX` bytes is rejected up front by both
the TLS writer and the Windows raw socket writer: the reported result is
the oversize error message, zero bytes are handed to `SSL_write`/`send`
(whatever the oracle would have answered), and the socket writer performs
no `shutdown(write)`. -/
theorem oversized_write_rejected (n : Nat) (h : n > INT_MAX) :
    (∀ (allow_retry : Bool) (err_text : Int → String) (evs : List SslCallRes),
      tls_writer.write allow_retry err_text evs n =
        (0, .err ("Message length " ++ toString n ++
          " exceeds max allowed length " ++ toString INT_MAX))) ∧
    (∀ (close_write : Bool) (sys : String) (evs : List Int),
      socket_writer.read close_write sys evs n =
        (0, .err ("Message length " ++ toString n ++
          " exceeds max allowed length " ++ toString INT_MAX), false)) := by
  constructor
  · intro allow_retry err_text evs
    simp [tls_writer.write, h]
  · intro close_write sys evs
    simp [socket_writer.read, h]

/-- Witness for the C4 theorem at a payload of `INT_MAX + 1` bytes. -/
theorem oversized_write_rejected_witness :
    tls_writer.write true (fun _ => "e") [] (INT_MAX + 1) =
      (0, .err ("Message length " ++ toString (INT_MAX + 1) ++
        " exceeds max allowed length " ++ toString INT_MAX)) ∧
    socket_writer.read true "s" [] (INT_MAX + 1) =
      (0, .err ("Message length " ++ toString (INT_MAX + 1) ++
        " exceeds max allowed length " ++ toString INT_MAX), false) :=
  ⟨(oversized_write_rejected (INT_MAX + 1) (by decide)).1 true (fun _ => "e") [],
   (oversized_write_rejected (INT_MAX + 1) (by decide)).2 true "s" []⟩

/-- Helper for C5: every successful run of the `socket_reader::write` loop
decomposes into a prefix of positive reads followed by either a poll
timeout or a zero-byte read, and the result accumulates exactly the bytes
of the positive reads. -/
theorem socket_reader_ok_characterisation (sys : String) :
    ∀ (evs : List ReadEvent) (acc l : List Nat),
      socket_reader.write sys evs acc = .ok l →
      ∃ pre term rest, evs = pre ++ term :: rest ∧
        (∀ e ∈ pre, ∃ n d, e = .recv n d ∧ 0 < n) ∧
        (term = .timeout ∨ ∃ d, term = .recv 0 d) ∧
        l = acc ++ read_events_data pre := by
  intro evs
  induction evs with
  | nil =>
    intro acc l h
    simp [socket_reader.write] at h
  | cons e rest ih =>
    intro acc l h
    cases e with
    | timeout =>
      refine ⟨[], .timeout, rest, by simp, by simp, Or.inl rfl, ?_⟩
      simp [socket_reader.write] at h
      simp [read_events_data, ← h]
    | recv n data =>
      by_cases hn : n < 0
      · simp [socket_reader.write, hn] at h
      · by_cases h0 : n = 0
        · subst h0
          simp [socket_reader.write] at h
          exact ⟨[], .recv 0 data, rest, by simp, by simp, Or.inr ⟨data, rfl⟩,
            by simp [read_events_data, ← h]⟩
        · have hpos : 0 < n := lt_of_le_of_ne (not_lt.mp hn) (Ne.symm h0)
          have hstep : socket_reader.write sys (.recv n data :: rest) acc =
              socket_reader.write sys rest (acc ++ data.take n.toNat) := by
            simp [socket_reader.write, hn, h0]
          rw [hstep] at h
          obtain ⟨pre, term, rest', heq, hpre, hterm, hl⟩ := ih _ _ h
          refine ⟨.recv n data :: pre, term, rest', by simp [heq], ?_, hterm, ?_⟩
          · intro e he
            rcases List.mem_cons.mp he with rfl | he
            · exact ⟨n, data, rfl, hpos⟩
            · exact hpre e he
          · simp [read_events_data, hl]

/-- C5: the `socket_reader::write` loop returns success in exactly two
cases — a poll timeout or a zero-byte read — and then yields whatever bytes
were accumulated so far; in particular a timeout before any bytes arrive is
an empty success, not an error. -/
theorem socket_reader_termination (sys : String) :
    (∀ (evs : List ReadEvent) (acc : List Nat),
      socket_reader.write sys (.timeout :: evs) acc = .ok acc) ∧
    (∀ (evs : List ReadEvent) (acc d : List Nat),
      socket_reader.write sys (.recv 0 d :: evs) acc = .ok acc) ∧
    (socket_reader.write sys [.timeout] [] = .ok []) ∧
    (∀ (evs : List ReadEvent) (acc l : List Nat),
      socket_reader.write sys evs acc = .ok l →
      ∃ pre term rest, evs = pre ++ term :: rest ∧
        (∀ e ∈ pre, ∃ n d, e = .recv n d ∧ 0 < n) ∧
        (term = .timeout ∨ ∃ d, term = .recv 0 d) ∧
        l = acc ++ read_events_data pre) := by
  refine ⟨?_, ?_, ?_, socket_reader_ok_characterisation sys⟩
  · intro evs acc
    simp [socket_reader.write]
  · intro evs acc d
    simp [socket_reader.write]
  · simp [socket_reader.write]

/-- Witness for the C5 theorem: a 2-byte read followed by a timeout
succeeds with exactly those 2 bytes. -/
theorem socket_reader_termination_witness :
    ∃ pre term rest,
      [ReadEvent.recv 2 [5, 6], ReadEvent.timeout] = pre ++ term :: rest ∧
      (∀ e ∈ pre, ∃ n d, e = ReadEvent.recv n d ∧ 0 < n) ∧
      (term = ReadEvent.timeout ∨ ∃ d, term = ReadEvent.recv 0 d) ∧
      [5, 6] = [] ++ read_events_data pre :=
  (socket_reader_termination "x").2.2.2 [.recv 2 [5, 6], .timeout] [] [5, 6]
    (by decide)

/-- Helper for C6: one admission keeps the thread deque within the bound. -/
theorem evict_push_bound (m : Nat) (hm : 1 ≤ m) (q : List Nat) (c : Nat)
    (hq : q.length ≤ m) : (echoserver.evict_push m q c).2.length ≤ m := by
  unfold echoserver.evict_push
  split
  · next hfull =>
    simp [List.length_append, List.length_drop, hfull]
    omega
  · next hne =>
    simp [List.length_append]
    omega

/-- Helper for C6: one accept-loop iteration keeps the deque bounded. -/
theorem loop_step_bound (m : Nat) (hm : 1 ≤ m) (st : List Nat × List Nat)
    (ev : EchoEv) (hq : st.2.length ≤ m) :
    (echoserver.loop_step m st ev).2.length ≤ m := by
  cases ev with
  | timeout => exact hq
  | conn h => exact evict_push_bound m hm st.2 h hq

/-- Helper for C6: the accept loop keeps the deque bounded throughout. -/
theorem loop_fold_bound (m : Nat) (hm : 1 ≤ m) (evs : List EchoEv) :
    ∀ st : List Nat × List Nat, st.2.length ≤ m →
      ((evs.foldl (echoserver.loop_step m) st).2).length ≤ m := by
  induction evs with
  | nil =>
    intro st h
    exact h
  | cons ev evs ih =>
    intro st h
    exact ih _ (loop_step_bound m hm st ev h)

/-- C6: in the echo server accept loop, when the thread deque is at
capacity `m` the front (oldest) thread — and only it — is joined and popped
before the new connection's thread is appended at the back; below capacity
nothing is joined; consequently, starting from any deque within the bound
(in particular the empty one `start` begins with), the deque never exceeds
`m` entries at any point of the loop. -/
theorem echoserver_bounded_fifo (m : Nat) (hm : 1 ≤ m) :
    (∀ (h : Nat) (t : List Nat) (c : Nat), (h :: t).length = m →
      echoserver.evict_push m (h :: t) c = ([h], t ++ [c])) ∧
    (∀ (q : List Nat) (c : Nat), q.length ≠ m →
      echoserver.evict_push m q c = ([], q ++ [c])) ∧
    (∀ (evs : List EchoEv) (j0 q0 : List Nat), q0.length ≤ m →
      ((evs.foldl (echoserver.loop_step m) (j0, q0)).2).length ≤ m) := by
  refine ⟨?_, ?_, ?_⟩
  · intro h t c hfull
    simp [echoserver.evict_push, hfull]
  · intro q c hne
    simp [echoserver.evict_push, hne]
  · intro evs j0 q0 h
    exact loop_fold_bound m hm evs (j0, q0) h

/-- Witness for the C6 theorem with `max_threads = 2`: a full deque `[7, 8]`
joins exactly thread 7, and three consecutive connections never push the
deque past 2 entries. -/
theorem echoserver_bounded_fifo_witness :
    echoserver.evict_push 2 [7, 8] 9 = ([7], [8] ++ [9]) ∧
    ((([EchoEv.conn 1, EchoEv.conn 2, EchoEv.conn 3].foldl
      (echoserver.loop_step 2) ([], [])).2).length ≤ 2) :=
  ⟨(echoserver_bounded_fifo 2 (by decide)).1 7 [8] 9 (by decide),
   (echoserver_bounded_fifo 2 (by decide)).2.2
      [.conn 1, .conn 2, .conn 3] [] [] (by decide)⟩

/-- Helper for C7: every serialised executor operation preserves the FIFO
invariant `executed ++ tasks = posted`, including the `start`-after-`stop`
operation that reaches `std::terminate`. -/
theorem exec_step_preserves (s : ExecState) (op : ExecOp)
    (h : s.executed ++ s.tasks = s.posted) :
    (thread_executor.step s op).executed ++ (thread_executor.step s op).tasks =
      (thread_executor.step s op).posted := by
  by_cases ht : s.terminated
  · simpa [thread_executor.step, ht] using h
  · cases op with
    | post t =>
      simp [thread_executor.step, ht, thread_executor.post, ← h]
    | worker =>
      simp only [thread_executor.step, ht, Bool.false_eq_true, if_false]
      simp only [thread_executor.worker_iter]
      split
      · cases htasks : s.tasks with
        | nil => simpa [htasks] using h
        | cons t rest => simp [htasks, ← h]
      · exact h
    | stop =>
      simpa [thread_executor.step, ht, thread_executor.stop] using h
    | start =>
      simp only [thread_executor.step, ht, Bool.false_eq_true, if_false]
      unfold thread_executor.start
      split
      · exact h
      · split <;> simpa using h

/-- Helper for C7: the FIFO invariant holds along any run. -/
theorem exec_run_invariant (ops : List ExecOp) (s : ExecState)
    (h : s.executed ++ s.tasks = s.posted) :
    (thread_executor.run s ops).executed ++ (thread_executor.run s ops).tasks =
      (thread_executor.run s ops).posted := by
  induction ops generalizing s with
  | nil => exact h
  | cons op ops ih => exact ih _ (exec_step_preserves s op h)

/-- C7: `post` appends each task at the back of the single shared queue, a
worker iteration removes exactly the front task, and along any interleaved
run from a fresh executor the dequeue-for-execution order is exactly the
submission order: `executed ++ tasks = posted`, so `executed` is always a
prefix of the posting history. -/
theorem executor_fifo :
    (∀ (s : ExecState) (t : Nat),
      thread_executor.post s t =
        { s with tasks := s.tasks ++ [t], posted := s.posted ++ [t] }) ∧
    (∀ (s : ExecState) (t : Nat) (rest : List Nat),
      s.running = true → s.tasks = t :: rest →
      thread_executor.worker_iter s =
        { s with tasks := rest, executed := s.executed ++ [t] }) ∧
    (∀ (n : Nat) (ops : List ExecOp),
      (thread_executor.run (thread_executor.init n) ops).executed ++
        (thread_executor.run (thread_executor.init n) ops).tasks =
        (thread_executor.run (thread_executor.init n) ops).posted) := by
  refine ⟨fun s t => rfl, ?_, ?_⟩
  · intro s t rest hr ht
    simp [thread_executor.worker_iter, hr, ht]
  · intro n ops
    exact exec_run_invariant ops _ rfl

/-- Witness for the C7 theorem: a running worker takes task 4 — the front of
`[4, 5]` — and leaves `[5]`. -/
theorem executor_fifo_witness :
    thread_executor.worker_iter
        { running := true, tasks := [4, 5], posted := [4, 5], executed := []
          n_workers := 2, spawned := true, terminated := false } =
      { running := true, tasks := [5], posted := [4, 5], executed := [4]
        n_workers := 2, spawned := true, terminated := false } :=
  executor_fifo.2.1
    { running := true, tasks := [4, 5], posted := [4, 5], executed := []
      n_workers := 2, spawned := true, terminated := false }
    4 [5] rfl rfl

/-- C8: for both server shapes `stop` is idempotent and total (`noexcept`
stores into an atomic flag — the model is a total function): stopping twice
gives the same state as stopping once, the result always has
`running() == false`, and stopping a never-started (default-constructed)
server leaves it in its initial not-running state. -/
theorem server_stop_idempotent :
    (∀ s : Ipv4State,
      ipv4_server.stop (ipv4_server.stop s) = ipv4_server.stop s ∧
      (ipv4_server.stop s).running = false) ∧
    (∀ a : Nat,
      ipv4_server.stop (ipv4_server.init a) = ipv4_server.init a ∧
      (ipv4_server.init a).running = false) ∧
    (∀ s : EchoState,
      echoserver.stop (echoserver.stop s) = echoserver.stop s ∧
      (echoserver.stop s).running = false) ∧
    (∀ a : Nat,
      echoserver.stop (echoserver.init a) = echoserver.init a ∧
      (echoserver.init a).running = false) :=
  ⟨fun _ => ⟨rfl, rfl⟩, fun _ => ⟨rfl, rfl⟩, fun _ => ⟨rfl, rfl⟩,
   fun _ => ⟨rfl, rfl⟩⟩

/-- C9: calling `start` on an already-running server is a reported error —
`ipv4_server::start` throws `"Server is already running"` and
`echoserver::start` returns `EXIT_FAILURE` — and in both shapes the
post-state is exactly the pre-state: socket, address and running flag are
untouched. -/
theorem start_while_running_error (si : Ipv4State) (se : EchoState)
    (hi : si.running = true) (he : se.running = true) :
    (∀ (params : server_params) (sock raddr : Nat) (evs : List ServeEv),
      ipv4_server.start si params sock raddr evs =
        (si, .error "Server is already running")) ∧
    (∀ (params : server_params) (sock raddr : Nat) (evs : List EchoEv),
      echoserver.start se params sock raddr evs = (se, EXIT_FAILURE)) := by
  constructor
  · intro params sock raddr evs
    simp [ipv4_server.start, hi]
  · intro params sock raddr evs
    simp [echoserver.start, he]

/-- Witness for the C9 theorem on concrete running servers. -/
theorem start_while_running_error_witness :
    ipv4_server.start
        { socket := some 3, address := 1, max_pending := 8, running := true }
        ⟨0, 8, 4⟩ 5 6 [] =
      ({ socket := some 3, address := 1, max_pending := 8, running := true },
        .error "Server is already running") ∧
    echoserver.start
        { socket := some 3, address := 1, running := true,
          thread_queue := [], max_threads := 4, max_pending := 8 }
        ⟨0, 8, 4⟩ 5 6 [] =
      ({ socket := some 3, address := 1, running := true,
          thread_queue := [], max_threads := 4, max_pending := 8 },
        EXIT_FAILURE) :=
  ⟨(start_while_running_error
      { socket := some 3, address := 1, max_pending := 8, running := true }
      { socket := some 3, address := 1, running := true,
        thread_queue := [], max_threads := 4, max_pending := 8 }
      rfl rfl).1 ⟨0, 8, 4⟩ 5 6 [],
   (start_while_running_error
      { socket := some 3, address := 1, max_pending := 8, running := true }
      { socket := some 3, address := 1, running := true,
        thread_queue := [], max_threads := 4, max_pending := 8 }
      rfl rfl).2 ⟨0, 8, 4⟩ 5 6 []⟩

/-- Helper for C10: a worker iteration on a stopped executor exits without
touching the state. -/
theorem worker_iter_stopped (s : ExecState) (hs : s.running = false) :
    thread_executor.worker_iter s = s := by
  simp [thread_executor.worker_iter, hs]

/-- Helper for C10: any number of worker iterations on a stopped executor
leaves the state unchanged. -/
theorem worker_iter_stopped_iterate (s : ExecState) (hs : s.running = false)
    (k : Nat) : thread_executor.worker_iter^[k] s = s := by
  induction k with
  | zero => rfl
  | succ k ih => rw [Function.iterate_succ_apply, worker_iter_stopped s hs, ih]

/-- Helper for C10: once the process has reached `std::terminate`, no
operation happens. -/
theorem step_terminated (s : ExecState) (op : ExecOp)
    (h : s.terminated = true) : thread_executor.step s op = s := by
  simp [thread_executor.step, h]

/-- Helper for C10: once the process has reached `std::terminate`, no run
of operations changes the state. -/
theorem run_terminated (s : ExecState) (ops : List ExecOp)
    (h : s.terminated = true) : thread_executor.run s ops = s := by
  induction ops with
  | nil => rfl
  | cons op ops ih =>
    show thread_executor.run (thread_executor.step s op) ops = s
    rw [step_terminated s op h]
    exact ih

/-- C10 (counterexample): the claim as stated is false.  On the reachable
stopped executor `thread_executor{1}` after `stop()`, a posted task is never
executed after a subsequent `start()`: `start()` move-assigns a fresh
`std::thread` onto the still-joinable worker, which calls `std::terminate`,
and the dead process executes nothing — for every number of worker
iterations after the restart the task is absent from the execution
history. -/
theorem claim_C10_refuted : ¬ claim_C10_stated := by
  intro h
  obtain ⟨-, -, k, hk⟩ := h cex_exec 4 rfl rfl
  have hrun : thread_executor.run (thread_executor.post cex_exec 4)
      (.start :: List.replicate k .worker) =
      thread_executor.run
        (thread_executor.step (thread_executor.post cex_exec 4) .start)
        (List.replicate k .worker) := rfl
  rw [hrun, run_terminated _ _ rfl] at hk
  exact absurd hk (by decide)

/-- C10 (amended): `post` appends the task and returns normally with no
check of the running flag; while the executor stays stopped, worker
iterations never execute (or drop) the queued task — it remains queued.  It
is not executed after a subsequent `start()` either: on every stopped
executor whose workers were spawned (the state any stopped executor
constructed with at least one worker is in, since the constructor's
`start()` spawned them and `join()` is destructor-only), `start()`
move-assigns onto a joinable `std::thread` and reaches `std::terminate`,
after which no run of operations ever places the task in the execution
history. -/
theorem post_while_stopped (s : ExecState) (t : Nat) (hs : s.running = false) :
    (thread_executor.post s t).tasks = s.tasks ++ [t] ∧
    (thread_executor.post s t).running = false ∧
    (∀ k : Nat,
      thread_executor.worker_iter^[k] (thread_executor.post s t) =
        thread_executor.post s t) ∧
    (s.spawned = true → 0 < s.n_workers → s.terminated = false →
      (thread_executor.step (thread_executor.post s t) .start).terminated =
        true ∧
      (t ∉ s.executed →
        ∀ ops : List ExecOp,
          t ∉ (thread_executor.run
            (thread_executor.step (thread_executor.post s t) .start)
            ops).executed)) := by
  have hpr : (thread_executor.post s t).running = false := hs
  refine ⟨rfl, hs, fun k => worker_iter_stopped_iterate _ hpr k, ?_⟩
  intro hspawn hn hter
  have hterm : thread_executor.step (thread_executor.post s t) .start =
      { thread_executor.post s t with running := true, terminated := true } := by
    simp [thread_executor.step, thread_executor.post, thread_executor.start,
      hs, hspawn, hn, hter]
  refine ⟨by rw [hterm], fun hnotin ops => ?_⟩
  rw [run_terminated _ ops (by rw [hterm]), hterm]
  simpa [thread_executor.post] using hnotin

/-- Witness for the amended C10 theorem: task 4 posted to the stopped
two-worker executor `wexec` is appended behind task 9, survives 3 idle
worker wakeups, and after the terminating `start()` is still unexecuted two
worker operations later. -/
theorem post_while_stopped_witness :
    (thread_executor.post wexec 4).tasks = [9] ++ [4] ∧
    thread_executor.worker_iter^[3] (thread_executor.post wexec 4) =
      thread_executor.post wexec 4 ∧
    (thread_executor.step (thread_executor.post wexec 4) .start).terminated =
      true ∧
    4 ∉ (thread_executor.run
        (thread_executor.step (thread_executor.post wexec 4) .start)
        [.worker, .worker]).executed :=
  ⟨(post_while_stopped wexec 4 rfl).1,
   (post_while_stopped wexec 4 rfl).2.2.1 3,
   ((post_while_stopped wexec 4 rfl).2.2.2 rfl (by decide) rfl).1,
   ((post_while_stopped wexec 4 rfl).2.2.2 rfl (by decide) rfl).2
      (by decide) [.worker, .worker]⟩

end Pdnnet
